import Mathlib

/-!
Verification development for the moon-image upload server (`src/script.js`).

The server is a single Express application with one business route,
`POST /upload`.  We shallowly embed the request pipeline:

* the multer middleware configured at the top of the file (MIME-type
  file filter, 5 MB size limit, staging to a temp path);
* the route handler's body (read `req.file.path`, `uploadToGemini`,
  `fs.unlink` of the temp file, `model.startChat` + `sendMessage`,
  classification of the reply, success page or redirect);
* the route handler's catch block, dispatching on the error message.

Errors raised by the multer middleware itself (MIME filter rejection,
size limit) are passed to `next(err)`; the application registers no
error-handling middleware, so Express's default error handler answers
them (status 500, framework-generated body) and the route handler —
including its catch block — never runs for them.  Only errors thrown
inside the handler's own `try` body reach the catch block's dispatch.

External behaviour (the Gemini file store, the chat model) is a
parameter of each request: an `Except`-valued outcome supplied in the
request record.  JavaScript string operations used by the source
(`String.prototype.includes`, `startsWith`, `toLowerCase`) are embedded
as list-of-character functions; `toLowerCase` is modelled by ASCII
simple lowercasing, which agrees with JavaScript on the alphabet the
classifier inspects.  Each handler run also records the trace of
observable side-effecting steps, whether the temp file was deleted, and
the arguments of the chat call, so that temporal and configuration
claims can be stated.
-/

/-- JavaScript `startsWith` on character lists: does the first list begin
with the second? -/
def listStartsWith : List Char → List Char → Bool
  | _, [] => true
  | [], _ :: _ => false
  | a :: as, b :: bs => a == b && listStartsWith as bs

/-- JavaScript `includes` on character lists: does the second list occur
as a contiguous run inside the first? -/
def listContainsSub (s p : List Char) : Bool :=
  match s with
  | [] => p.isEmpty
  | _ :: tail => listStartsWith s p || listContainsSub tail p

/-- Embedding of JavaScript `String.prototype.startsWith`. -/
def jsStartsWith (s pat : String) : Bool :=
  listStartsWith s.data pat.data

/-- Embedding of JavaScript `String.prototype.includes`. -/
def jsIncludes (s pat : String) : Bool :=
  listContainsSub s.data pat.data

/-- Embedding of JavaScript `String.prototype.toLowerCase` (ASCII
simple lowercasing, which is what the classifier's `"yes"` test
depends on). -/
def jsToLower (s : String) : String :=
  ⟨s.data.map Char.toLower⟩

/-- A JavaScript `Error` value, identified by its `message` (the catch
block only ever inspects `error.message`). -/
structure Err where
  message : String
deriving DecidableEq

/-- The file a client attached under the multipart field `image`:
`originalname`, declared `mimetype` and byte `size`, as multer sees it. -/
structure IncomingFile where
  originalname : String
  mimetype : String
  size : Nat
deriving DecidableEq

/-- What multer hands the route as `req.file` after staging: the
generated temp `path` plus the declared metadata. -/
structure StagedFile where
  path : String
  mimetype : String
  originalname : String
deriving DecidableEq

/-- The remote file handle returned by the Gemini file store
(`uploadResult.file` in `uploadToGemini`). -/
structure RemoteFile where
  displayName : String
  name : String
  mimeType : String
  uri : String
deriving DecidableEq

/-- One part of a chat message.  The handler only ever builds
`fileData` parts carrying a MIME type and a file URI. -/
structure FilePart where
  mimeType : String
  fileUri : String
deriving DecidableEq

/-- A chat message: a role and its parts. -/
structure ChatMessage where
  role : String
  parts : List FilePart
deriving DecidableEq

/-- The generation configuration object (`generationConfig` in the
source).  `temperature` and `topP` are the literals `1` and `0.95`,
embedded as rationals. -/
structure GenConfig where
  temperature : ℚ
  topP : ℚ
  topK : ℕ
  maxOutputTokens : ℕ
  responseMimeType : String
deriving DecidableEq

/-- The process-wide `generationConfig` constant from the source. -/
def generationConfig : GenConfig :=
  { temperature := 1
    topP := 0.95
    topK := 40
    maxOutputTokens := 8192
    responseMimeType := "text/plain" }

/-- Everything the handler passed to the chat session on one request:
the generation configuration and initial history given to
`model.startChat`, and the text given to `chatSession.sendMessage`. -/
structure ChatCallRecord where
  config : GenConfig
  history : List ChatMessage
  sentMessage : String
deriving DecidableEq

/-- One `POST /upload` request together with the external world's
behaviour on it: the optional file under field `image`, the temp path
multer would assign, and the outcomes of the two remote calls. -/
structure UploadRequest where
  file : Option IncomingFile
  tmpPath : String
  uploadResult : Except Err RemoteFile
  chatReply : Except Err String

/-- Observable side-effecting steps of one request, in the order they
happen. -/
inductive Event where
  | validate
  | stageTemp
  | remoteUpload
  | deleteTemp
  | chatCall
  | respond
deriving DecidableEq

/-- HTTP responses the request can produce: `res.send` (status 200),
`res.redirect` (no body), `res.status(code).send(body)`, or the answer
of Express's default error handler to a middleware error — the
application registers no error middleware, so such an error is answered
by the framework with HTTP status 500 (multer's errors carry no status
of their own) and a framework-generated body derived from the error. -/
inductive HttpResponse where
  | ok200 (body : String)
  | redirect (location : String)
  | status (code : Nat) (body : String)
  | defaultError (e : Err)
deriving DecidableEq

/-- The multer `fileFilter` callback: accept when the declared MIME
type starts with `image/`, otherwise signal
`Error('Only image files are allowed!')`. -/
def fileFilter (mimetype : String) : Except Err Bool :=
  if jsStartsWith mimetype "image/" then
    .ok true
  else
    .error ⟨"Only image files are allowed!"⟩

/-- The `limits.fileSize` option: `5 * 1024 * 1024` bytes. -/
def fileSizeLimit : Nat := 5 * 1024 * 1024

/-- The size check induced by `limits.fileSize`: a file is within the
limit iff its size does not exceed `fileSizeLimit`; multer errors only
when the content exceeds the limit. -/
def withinSizeLimit (size : Nat) : Bool :=
  size ≤ fileSizeLimit

/-- The `upload.single('image')` middleware as configured in the
source: with no file it stages nothing and succeeds; with a file it
runs the MIME filter, enforces the size limit (error message
`File too large`), and otherwise stages the file at the request's temp
path.  Returns the events performed and either the error it raised or
the resulting `req.file`. -/
def multerSingle (req : UploadRequest) : List Event × Except Err (Option StagedFile) :=
  match req.file with
  | none => ([], .ok none)
  | some f =>
    match fileFilter f.mimetype with
    | .error e => ([.validate], .error e)
    | .ok _ =>
      if withinSizeLimit f.size then
        ([.validate, .stageTemp], .ok (some ⟨req.tmpPath, f.mimetype, f.originalname⟩))
      else
        ([.validate], .error ⟨"File too large"⟩)

/-- `uploadToGemini`: forwards the file-store call's outcome; its catch
block logs and rethrows, so the result is the external outcome
unchanged. -/
def uploadToGemini (result : Except Err RemoteFile) : Except Err RemoteFile :=
  match result with
  | .ok file => .ok file
  | .error e => .error e

/-- The fixed prompt sent with `chatSession.sendMessage`. -/
def moonPrompt : String :=
  "Is this image of the moon? Give answer in yes or no only"

/-- The chat-call arguments the handler builds for a given remote file
handle: the process-wide `generationConfig`, a one-message history
whose single user turn holds one `fileData` part with the handle's
MIME type and URI, and the fixed prompt. -/
def chatCallFor (uploadedFile : RemoteFile) : ChatCallRecord :=
  { config := generationConfig
    history := [{ role := "user"
                  parts := [{ mimeType := uploadedFile.mimeType
                              fileUri := uploadedFile.uri }] }]
    sentMessage := moonPrompt }

/-- The classifier applied to the chat reply:
`responseText.includes('yes')` after `toLowerCase`. -/
def repliesYes (reply : String) : Bool :=
  jsIncludes (jsToLower reply) "yes"

/-- The inline celebratory HTML document sent on a positive
classification (the template literal passed to `res.send`). -/
def successHtml : String :=
  "
        <!DOCTYPE html>
        <html lang=\"en\">
        <head>
          <meta charset=\"UTF-8\">
          <meta name=\"viewport\" content=\"width=device-width, initial-scale=1.0\">
          <title>Surprise!!!</title>
          <link rel=\"stylesheet\" href=\"style.css\">
        </head>
        <body>
          <div class=\"container\">
            <h1>Dingdingdingding</h1>
            <p>HAPPY BIRTHDAYYYY MOONPIE!!!! I LOVE YOUUU SO MUCH YOU LITTLE DINGUS 🎀</p>
          </div>
        </body>
        </html>
      "

/-- Result of the `try` body of the route handler: events performed,
whether the temp file was unlinked, the chat call made (if reached),
and either the response sent or the error thrown. -/
structure BodyResult where
  events : List Event
  tempDeleted : Bool
  chatCall : Option ChatCallRecord
  outcome : Except Err HttpResponse

/-- The `try` block of the `POST /upload` handler.  With no staged file,
reading `req.file.path` throws a `TypeError` (whose message does not
mention image files).  Otherwise: remote upload, unconditional
`fs.unlink` of the temp file, chat session, classification, and
either the success page or a redirect to `/`. -/
def tryBody (req : UploadRequest) (staged : Option StagedFile) : BodyResult :=
  match staged with
  | none =>
    { events := []
      tempDeleted := false
      chatCall := none
      outcome := .error ⟨"Cannot read properties of undefined (reading 'path')"⟩ }
  | some _ =>
    match uploadToGemini req.uploadResult with
    | .error e =>
      { events := [.remoteUpload]
        tempDeleted := false
        chatCall := none
        outcome := .error e }
    | .ok uploadedFile =>
      let call := chatCallFor uploadedFile
      match req.chatReply with
      | .error e =>
        { events := [.remoteUpload, .deleteTemp, .chatCall]
          tempDeleted := true
          chatCall := some call
          outcome := .error e }
      | .ok reply =>
        { events := [.remoteUpload, .deleteTemp, .chatCall, .respond]
          tempDeleted := true
          chatCall := some call
          outcome := .ok (if repliesYes reply then
                            .ok200 successHtml
                          else
                            .redirect "/") }

/-- The catch block's dispatch: an error whose message contains
`Only image files are allowed` becomes 400 with the invalid-file body;
every other error becomes 500 with the generic body. -/
def errorResponse (msg : String) : HttpResponse :=
  if jsIncludes msg "Only image files are allowed" then
    .status 400 "Invalid file type. Please upload an image."
  else
    .status 500 "An error occurred while processing your image."

/-- The complete observable outcome of one `POST /upload` request. -/
structure HandlerOutcome where
  events : List Event
  response : HttpResponse
  tempDeleted : Bool
  chatCall : Option ChatCallRecord
deriving DecidableEq

/-- The whole `POST /upload` pipeline: the configured multer middleware
followed by the route handler.  A multer error goes to `next(err)` and
is answered by Express's default error handler — the route handler and
its catch block never run for it.  An error thrown inside the handler's
`try` body is dispatched once through the catch block's
`errorResponse`. -/
def handleUpload (req : UploadRequest) : HandlerOutcome :=
  match multerSingle req with
  | (evs, .error e) =>
    { events := evs ++ [.respond]
      response := .defaultError e
      tempDeleted := false
      chatCall := none }
  | (evs, .ok staged) =>
    let body := tryBody req staged
    match body.outcome with
    | .ok resp =>
      { events := evs ++ body.events
        response := resp
        tempDeleted := body.tempDeleted
        chatCall := body.chatCall }
    | .error e =>
      { events := evs ++ body.events ++ [.respond]
        response := errorResponse e.message
        tempDeleted := body.tempDeleted
        chatCall := body.chatCall }

/-- The error raised during one request's processing, if any: the
multer middleware's error, or the one thrown inside the `try` body. -/
def raisedError (req : UploadRequest) : Option Err :=
  match multerSingle req with
  | (_, .error e) => some e
  | (_, .ok staged) =>
    match (tryBody req staged).outcome with
    | .error e => some e
    | .ok _ => none

/-- The error raised by the multer middleware itself, if any: these are
the errors handed to `next(err)` and answered by the framework's
default error handler. -/
def multerError (req : UploadRequest) : Option Err :=
  match multerSingle req with
  | (_, .error e) => some e
  | (_, .ok _) => none

/-- The error thrown inside the route handler's own `try` body, if any:
these are the only errors the catch block ever receives. -/
def tryBlockError (req : UploadRequest) : Option Err :=
  match multerSingle req with
  | (_, .error _) => none
  | (_, .ok staged) =>
    match (tryBody req staged).outcome with
    | .error e => some e
    | .ok _ => none

/-- `process.env.PORT || 3000`: the string from the environment when it
is set and non-empty (JavaScript truthiness on strings), otherwise the
number 3000. -/
def portValue (envPort : Option String) : String ⊕ Nat :=
  match envPort with
  | none => Sum.inr 3000
  | some s => if s.isEmpty then Sum.inr 3000 else Sum.inl s

/-- Decimal reading of a port string: `some n` when the string is a
non-empty run of decimal digits denoting `n`. -/
def parseDecNat (s : String) : Option Nat :=
  if !s.data.isEmpty && s.data.all (fun c => c.isDigit) then
    some (s.data.foldl (fun n c => n * 10 + (c.toNat - 48)) 0)
  else
    none

/-- The TCP port `app.listen` binds for a given `PORT` value: a numeric
string is interpreted as its decimal value. -/
def listenedPort (v : String ⊕ Nat) : Nat :=
  match v with
  | Sum.inl s => (parseDecNat s).getD 0
  | Sum.inr n => n

/-- The startup log line printed by the `app.listen` callback. -/
def startupLog (v : String ⊕ Nat) : String :=
  match v with
  | Sum.inl s => "Server running on port " ++ s
  | Sum.inr n => "Server running on port " ++ toString n

set_option maxRecDepth 100000

/-- Helper: a chat call is made only after a successful remote upload,
and its arguments are exactly `chatCallFor` of the returned handle. -/
theorem handleUpload_chatCall_eq (req : UploadRequest) (cc : ChatCallRecord)
    (h : (handleUpload req).chatCall = some cc) :
    ∃ remote, req.uploadResult = .ok remote ∧ cc = chatCallFor remote := by
  obtain ⟨file, tmp, ur, cr⟩ := req
  cases file with
  | none => simp [handleUpload, multerSingle, tryBody] at h
  | some f =>
    by_cases hm : jsStartsWith f.mimetype "image/" = true
    · by_cases hs : withinSizeLimit f.size = true
      · cases ur with
        | error e =>
          simp [handleUpload, multerSingle, fileFilter, hm, hs, tryBody,
            uploadToGemini] at h
        | ok remote =>
          cases cr with
          | error e =>
            simp [handleUpload, multerSingle, fileFilter, hm, hs, tryBody,
              uploadToGemini] at h
            exact ⟨remote, rfl, h.symm⟩
          | ok reply =>
            simp [handleUpload, multerSingle, fileFilter, hm, hs, tryBody,
              uploadToGemini] at h
            exact ⟨remote, rfl, h.symm⟩
      · simp [handleUpload, multerSingle, fileFilter, hm, hs, tryBody] at h
    · simp [handleUpload, multerSingle, fileFilter, hm] at h

/-- C1: on every request that reaches the classification step, the
lower-cased reply is tested for the substring `yes`: if it contains
`yes` the response is status 200 with the inline HTML page containing
the heading `Dingdingdingding` and the birthday message; otherwise the
response is a redirect to `/` carrying no body. -/
theorem classification_dichotomy (req : UploadRequest) (f : IncomingFile)
    (remote : RemoteFile) (reply : String)
    (hf : req.file = some f)
    (hm : jsStartsWith f.mimetype "image/" = true)
    (hs : withinSizeLimit f.size = true)
    (hu : req.uploadResult = .ok remote)
    (hc : req.chatReply = .ok reply) :
    (jsIncludes (jsToLower reply) "yes" = true →
       (handleUpload req).response = .ok200 successHtml
       ∧ jsIncludes successHtml "Dingdingdingding" = true
       ∧ jsIncludes successHtml
           "HAPPY BIRTHDAYYYY MOONPIE!!!! I LOVE YOUUU SO MUCH YOU LITTLE DINGUS 🎀" = true)
    ∧ (jsIncludes (jsToLower reply) "yes" = false →
       (handleUpload req).response = .redirect "/") := by
  obtain ⟨file, tmp, ur, cr⟩ := req
  simp only at hf hu hc
  subst hf hu hc
  refine ⟨fun hyes => ?_, fun hno => ?_⟩
  · refine ⟨?_, by decide, by decide⟩
    simp [handleUpload, multerSingle, fileFilter, hm, hs, tryBody,
      uploadToGemini, repliesYes, hyes]
  · simp [handleUpload, multerSingle, fileFilter, hm, hs, tryBody,
      uploadToGemini, repliesYes, hno]

/-- A request carrying a valid image whose upload and chat both succeed,
with reply `Yes.`. -/
def reqMoonYes : UploadRequest :=
  { file := some ⟨"moon.png", "image/png", 1024⟩
    tmpPath := "/tmp/upload-1"
    uploadResult := .ok ⟨"moon.png", "files/abc123", "image/png",
      "https://generativelanguage.googleapis.com/v1beta/files/abc123"⟩
    chatReply := .ok "Yes." }

/-- C1 witness: the concrete request `reqMoonYes` reaches classification
with reply `Yes.` and gets the celebratory page. -/
theorem classification_dichotomy_witness :
    (handleUpload reqMoonYes).response = .ok200 successHtml
    ∧ jsIncludes successHtml "Dingdingdingding" = true := by
  have h := classification_dichotomy reqMoonYes ⟨"moon.png", "image/png", 1024⟩
    ⟨"moon.png", "files/abc123", "image/png",
      "https://generativelanguage.googleapis.com/v1beta/files/abc123"⟩
    "Yes." rfl (by decide) (by decide) rfl rfl
  obtain ⟨h1, h2, -⟩ := h.1 (by decide)
  exact ⟨h1, h2⟩

/-- A request whose file declares MIME type `text/plain`. -/
def reqTextPlain : UploadRequest :=
  { file := some ⟨"notes.txt", "text/plain", 64⟩
    tmpPath := "/tmp/upload-2"
    uploadResult := .ok ⟨"notes.txt", "files/zzz", "text/plain", "https://files/zzz"⟩
    chatReply := .ok "yes" }

/-- C2: evaluation of the code at a `text/plain` upload.  The filter
does reject it before it is staged to disk (and accepts `image/png`),
and the catch block would map the filter's error message to exactly the
claimed 400 response — but the filter's error is passed to `next(err)`
and answered by Express's default error handler (status 500), so the
400 response the claim (and the code's own catch branch) intends is
never actually produced. -/
theorem mime_rejection_bug_eval :
    fileFilter "text/plain" = .error ⟨"Only image files are allowed!"⟩
    ∧ Event.stageTemp ∉ (handleUpload reqTextPlain).events
    ∧ fileFilter "image/png" = .ok true
    ∧ errorResponse "Only image files are allowed!"
        = .status 400 "Invalid file type. Please upload an image."
    ∧ (handleUpload reqTextPlain).response
        = .defaultError ⟨"Only image files are allowed!"⟩
    ∧ (handleUpload reqTextPlain).response
        ≠ .status 400 "Invalid file type. Please upload an image." := by
  refine ⟨rfl, by decide, rfl, by decide, by decide, by decide⟩

/-- A valid image request whose remote upload throws a network error. -/
def reqUploadFail : UploadRequest :=
  { file := some ⟨"moon.png", "image/png", 2048⟩
    tmpPath := "/tmp/upload-3"
    uploadResult := .error ⟨"fetch failed"⟩
    chatReply := .ok "yes" }

/-- C3 counterexample: the `text/plain` upload raises an error during
upload intake whose message contains `Only image files are allowed`,
yet the response is not the claimed 400 with the invalid-file body —
the error bypasses the route's catch block and is answered by the
framework's default error handler. -/
theorem route_dispatch_counterexample :
    raisedError reqTextPlain = some ⟨"Only image files are allowed!"⟩
    ∧ jsIncludes "Only image files are allowed!" "Only image files are allowed" = true
    ∧ (handleUpload reqTextPlain).response
        ≠ .status 400 "Invalid file type. Please upload an image." := by
  refine ⟨by decide, by decide, by decide⟩

/-- C3 as amended: only errors thrown inside the route handler's `try`
body are caught at the route boundary and dispatched on their message
text — a message containing `Only image files are allowed` would yield
400 with the invalid-file body, any other message yields 500 with the
generic body — while errors raised by the multer middleware (upload
intake validation) never reach the catch block and are answered by
Express's default error handler instead. -/
theorem try_block_error_dispatch (req : UploadRequest) (e : Err) :
    (tryBlockError req = some e →
       (handleUpload req).response =
         (if jsIncludes e.message "Only image files are allowed" then
            HttpResponse.status 400 "Invalid file type. Please upload an image."
          else
            HttpResponse.status 500 "An error occurred while processing your image."))
    ∧ (multerError req = some e →
       (handleUpload req).response = .defaultError e) := by
  constructor
  · intro he
    rcases hmu : multerSingle req with ⟨evs, res⟩
    cases res with
    | error e0 => simp [tryBlockError, hmu] at he
    | ok staged =>
      rcases hb : (tryBody req staged).outcome with e0 | resp
      · simp [tryBlockError, hmu, hb] at he
        subst he
        simp [handleUpload, hmu, hb, errorResponse]
      · simp [tryBlockError, hmu, hb] at he
  · intro he
    rcases hmu : multerSingle req with ⟨evs, res⟩
    cases res with
    | error e0 =>
      simp [multerError, hmu] at he
      subst he
      simp [handleUpload, hmu]
    | ok staged => simp [multerError, hmu] at he

/-- C3 witness: a chat-independent classification-client failure
(`fetch failed`, raised in the try body) is dispatched to the generic
500, and the `text/plain` request's intake error is answered by the
default error handler. -/
theorem try_block_error_dispatch_witness :
    (handleUpload reqUploadFail).response
      = .status 500 "An error occurred while processing your image."
    ∧ (handleUpload reqTextPlain).response
        = .defaultError ⟨"Only image files are allowed!"⟩ := by
  constructor
  · have h := (try_block_error_dispatch reqUploadFail ⟨"fetch failed"⟩).1 (by decide)
    rw [h]
    decide
  · exact (try_block_error_dispatch reqTextPlain
      ⟨"Only image files are allowed!"⟩).2 (by decide)

/-- C4: when the remote upload succeeds, the request's observable steps
are exactly validate, stage the temp file, remote upload, delete the
temp file, chat call, respond — in that order — and the temp file is
deleted (so the deletion precedes the chat call, whatever the chat
call's outcome). -/
theorem success_sequence (req : UploadRequest) (f : IncomingFile)
    (remote : RemoteFile)
    (hf : req.file = some f)
    (hm : jsStartsWith f.mimetype "image/" = true)
    (hs : withinSizeLimit f.size = true)
    (hu : req.uploadResult = .ok remote) :
    (handleUpload req).events =
      [.validate, .stageTemp, .remoteUpload, .deleteTemp, .chatCall, .respond]
    ∧ (handleUpload req).tempDeleted = true := by
  obtain ⟨file, tmp, ur, cr⟩ := req
  simp only at hf hu
  subst hf hu
  cases cr with
  | error e =>
    constructor <;>
      simp [handleUpload, multerSingle, fileFilter, hm, hs, tryBody, uploadToGemini]
  | ok reply =>
    constructor <;>
      simp [handleUpload, multerSingle, fileFilter, hm, hs, tryBody, uploadToGemini]

/-- C4 witness: the concrete successful request performs the six steps
in order and deletes its temp file. -/
theorem success_sequence_witness :
    (handleUpload reqMoonYes).events =
      [.validate, .stageTemp, .remoteUpload, .deleteTemp, .chatCall, .respond]
    ∧ (handleUpload reqMoonYes).tempDeleted = true :=
  success_sequence reqMoonYes ⟨"moon.png", "image/png", 1024⟩
    ⟨"moon.png", "files/abc123", "image/png",
      "https://generativelanguage.googleapis.com/v1beta/files/abc123"⟩
    rfl (by decide) (by decide) rfl

/-- C5: when the remote upload throws (with a message unrelated to the
file-type marker), the response is 500 with the generic body, no
deletion step is performed, and the temp file is not deleted. -/
theorem remote_upload_failure (req : UploadRequest) (f : IncomingFile) (e : Err)
    (hf : req.file = some f)
    (hm : jsStartsWith f.mimetype "image/" = true)
    (hs : withinSizeLimit f.size = true)
    (hu : req.uploadResult = .error e)
    (hmsg : jsIncludes e.message "Only image files are allowed" = false) :
    (handleUpload req).response
      = .status 500 "An error occurred while processing your image."
    ∧ (handleUpload req).tempDeleted = false
    ∧ Event.deleteTemp ∉ (handleUpload req).events := by
  obtain ⟨file, tmp, ur, cr⟩ := req
  simp only at hf hu
  subst hf hu
  refine ⟨?_, ?_, ?_⟩ <;>
    simp [handleUpload, multerSingle, fileFilter, hm, hs, tryBody, uploadToGemini,
      errorResponse, hmsg]

/-- C5 witness: the concrete failing-upload request gets 500 and keeps
its temp file. -/
theorem remote_upload_failure_witness :
    (handleUpload reqUploadFail).response
      = .status 500 "An error occurred while processing your image."
    ∧ (handleUpload reqUploadFail).tempDeleted = false :=
  let h := remote_upload_failure reqUploadFail ⟨"moon.png", "image/png", 2048⟩
    ⟨"fetch failed"⟩ rfl (by decide) (by decide) rfl (by decide)
  ⟨h.1, h.2.1⟩

/-- C6: the generation configuration is the single process-wide
constant, and every chat session made by the handler uses exactly
temperature 1, topP 0.95, topK 40, maxOutputTokens 8192 and
responseMimeType `text/plain`. -/
theorem generation_config_fixed (req : UploadRequest) (cc : ChatCallRecord)
    (h : (handleUpload req).chatCall = some cc) :
    cc.config = generationConfig
    ∧ cc.config.temperature = 1
    ∧ cc.config.topP = 0.95
    ∧ cc.config.topK = 40
    ∧ cc.config.maxOutputTokens = 8192
    ∧ cc.config.responseMimeType = "text/plain" := by
  obtain ⟨remote, -, hcc⟩ := handleUpload_chatCall_eq req cc h
  subst hcc
  exact ⟨rfl, rfl, rfl, rfl, rfl, rfl⟩

/-- C6 witness: the chat call of the concrete successful request uses
the process-wide configuration. -/
theorem generation_config_fixed_witness :
    ∃ cc, (handleUpload reqMoonYes).chatCall = some cc
      ∧ cc.config = generationConfig
      ∧ cc.config.temperature = 1
      ∧ cc.config.topP = 0.95 := by
  have h := generation_config_fixed reqMoonYes
    (chatCallFor ⟨"moon.png", "files/abc123", "image/png",
      "https://generativelanguage.googleapis.com/v1beta/files/abc123"⟩) rfl
  exact ⟨_, rfl, h.1, h.2.1, h.2.2.1⟩

/-- C7: on every request that reaches classification, the chat
session's initial history is exactly one user message holding a single
file-reference part with the remote handle's MIME type and URI, and
the single message then sent is the fixed moon prompt. -/
theorem chat_history_and_prompt (req : UploadRequest) (remote : RemoteFile)
    (cc : ChatCallRecord)
    (hu : req.uploadResult = .ok remote)
    (h : (handleUpload req).chatCall = some cc) :
    cc.history = [{ role := "user"
                    parts := [{ mimeType := remote.mimeType
                                fileUri := remote.uri }] }]
    ∧ cc.sentMessage = "Is this image of the moon? Give answer in yes or no only" := by
  obtain ⟨remote2, hu2, hcc⟩ := handleUpload_chatCall_eq req cc h
  rw [hu] at hu2
  cases hu2
  subst hcc
  exact ⟨rfl, rfl⟩

/-- C7 witness: the concrete successful request's chat call carries the
one-message file-reference history and the fixed prompt. -/
theorem chat_history_and_prompt_witness :
    ∃ cc, (handleUpload reqMoonYes).chatCall = some cc
      ∧ cc.history = [{ role := "user"
                        parts := [{ mimeType := "image/png"
                                    fileUri := "https://generativelanguage.googleapis.com/v1beta/files/abc123" }] }]
      ∧ cc.sentMessage = "Is this image of the moon? Give answer in yes or no only" := by
  have h := chat_history_and_prompt reqMoonYes
    ⟨"moon.png", "files/abc123", "image/png",
      "https://generativelanguage.googleapis.com/v1beta/files/abc123"⟩
    (chatCallFor ⟨"moon.png", "files/abc123", "image/png",
      "https://generativelanguage.googleapis.com/v1beta/files/abc123"⟩) rfl rfl
  exact ⟨_, rfl, h.1, h.2⟩

/-- C8: the size limit is 5,242,880 bytes; exactly 5,242,880 bytes
passes the size check, 5,242,881 fails it, and an oversized (otherwise
valid) upload is rejected before any business logic runs: no remote
upload step and no chat call happen. -/
theorem size_limit_boundary (req : UploadRequest) (f : IncomingFile)
    (hf : req.file = some f)
    (hm : jsStartsWith f.mimetype "image/" = true)
    (hbig : f.size = 5242881) :
    fileSizeLimit = 5242880
    ∧ withinSizeLimit 5242880 = true
    ∧ withinSizeLimit 5242881 = false
    ∧ Event.remoteUpload ∉ (handleUpload req).events
    ∧ (handleUpload req).chatCall = none := by
  obtain ⟨file, tmp, ur, cr⟩ := req
  simp only at hf
  subst hf
  refine ⟨by decide, by decide, by decide, ?_, ?_⟩ <;>
    simp [handleUpload, multerSingle, fileFilter, hm, hbig, withinSizeLimit,
      fileSizeLimit]

/-- A request with a 5,242,881-byte PNG. -/
def reqOversized : UploadRequest :=
  { file := some ⟨"big.png", "image/png", 5242881⟩
    tmpPath := "/tmp/upload-4"
    uploadResult := .ok ⟨"big.png", "files/big", "image/png", "https://files/big"⟩
    chatReply := .ok "yes" }

/-- C8 witness: the concrete oversized request is stopped before the
remote upload. -/
theorem size_limit_boundary_witness :
    withinSizeLimit 5242880 = true
    ∧ withinSizeLimit 5242881 = false
    ∧ Event.remoteUpload ∉ (handleUpload reqOversized).events :=
  let h := size_limit_boundary reqOversized ⟨"big.png", "image/png", 5242881⟩
    rfl (by decide) rfl
  ⟨h.2.1, h.2.2.1, h.2.2.2.1⟩

/-- C9: the listening port comes from the `PORT` environment value when
one is provided (a numeric string listens on its decimal value) and
defaults to 3000 when `PORT` is unset, and the startup line names the
port. -/
theorem port_resolution (s : String) (n : Nat)
    (hs : s.isEmpty = false) (hn : parseDecNat s = some n) :
    listenedPort (portValue (some s)) = n
    ∧ startupLog (portValue (some s)) = "Server running on port " ++ s
    ∧ listenedPort (portValue none) = 3000
    ∧ startupLog (portValue none) = "Server running on port 3000" := by
  refine ⟨?_, ?_, rfl, rfl⟩ <;> simp [portValue, listenedPort, startupLog, hs, hn]

/-- C9 witness: `PORT=8080` listens on 8080 with the matching startup
line, and the default is 3000. -/
theorem port_resolution_witness :
    listenedPort (portValue (some "8080")) = 8080
    ∧ startupLog (portValue (some "8080")) = "Server running on port 8080"
    ∧ listenedPort (portValue none) = 3000 :=
  let h := port_resolution "8080" 8080 (by decide) (by decide)
  ⟨h.1, h.2.1, h.2.2.1⟩

/-- C10: a `POST /upload` with no file under field `image` makes the
handler throw while reading the file's path; that error's message does
not contain the file-type marker, so the response is the generic 500,
not the 400 validation response. -/
theorem missing_file_is_500 (req : UploadRequest)
    (hf : req.file = none) :
    ∃ e, raisedError req = some e
      ∧ jsIncludes e.message "Only image files are allowed" = false
      ∧ (handleUpload req).response
          = .status 500 "An error occurred while processing your image." := by
  obtain ⟨file, tmp, ur, cr⟩ := req
  simp only at hf
  subst hf
  refine ⟨⟨"Cannot read properties of undefined (reading 'path')"⟩, ?_, by decide, ?_⟩
  · simp [raisedError, multerSingle, tryBody]
  · simp [handleUpload, multerSingle, tryBody, errorResponse]
    decide

/-- A fileless `POST /upload` request. -/
def reqNoFile : UploadRequest :=
  { file := none
    tmpPath := ""
    uploadResult := .ok ⟨"", "", "", ""⟩
    chatReply := .ok "yes" }

/-- C10 witness: the concrete fileless request raises a non-marker
error and is answered 500. -/
theorem missing_file_is_500_witness :
    ∃ e, raisedError reqNoFile = some e
      ∧ jsIncludes e.message "Only image files are allowed" = false
      ∧ (handleUpload reqNoFile).response
          = .status 500 "An error occurred while processing your image." :=
  missing_file_is_500 reqNoFile rfl
